import Mathlib

/-!
Verification of the B+-tree node codec and insert path of
`src/src/storage/b_tree.rs`, and of the save strategies of
`src/src/tests/mod.rs`, against the repository specification.

The embedding is byte-level and faithful to the Rust source:
* `BNode.data` is the raw byte vector (`Vec<u8>` in the source).
* Every Rust panic site is modelled as an `Except.error` with a
  distinguishing `Err` constructor:
  - `assert!(..)` failures (`Err.assertBound`),
  - `slice.try_into().unwrap()` on a slice whose length is not exactly the
    array length demanded by `from_le_bytes` (`Err.sliceConv`) — note the
    source reads `self.data[pos..]`, the whole tail, so the conversion
    succeeds only when exactly 2 (resp. 8) bytes remain,
  - out-of-range slice indexing (`Err.rangeOob`),
  - `copy_from_slice` length mismatch (`Err.copyLen`),
  - u16 add/sub overflow in debug builds (`Err.arithOver`),
  - the two explicit `panic!` sites (`Err.invalidValue`, `Err.nodeError`),
  - `todo!()` bodies (`Err.todoPanic`).
* `as u16` casts are modelled as `% 65536` (they wrap, never panic).
-/

def HEADER : Nat := 4
def BTREE_PAGE_SIZE : Nat := 4096
def BTREE_MAX_KEY_SIZE : Nat := 1000
def BTREE_MAX_VAL_SIZE : Nat := 3000

inductive Err where
  | assertBound   -- an assert! failed
  | sliceConv     -- try_into().unwrap() failed: slice length is not the array length
  | rangeOob      -- slice index out of range
  | copyLen       -- copy_from_slice: source and destination lengths differ
  | arithOver     -- u16 arithmetic overflow (debug build panic)
  | invalidValue  -- panic!("Invalid value") in From<u16> for NodeType
  | nodeError     -- panic!("node error") in tree_insert's Err arm
  | todoPanic     -- todo!()
  | pageNotFound  -- spec 6: page-manager fetch of an unknown id
  | ioNotFound    -- fs::rename / fs::remove_file on a missing file
  | fuelOut       -- artificial recursion bound of the embedding
deriving Repr, DecidableEq

structure BNode where
  data : List Nat
deriving Repr, DecidableEq

/-- `u16::to_le_bytes` of a value already reduced below 2^16. -/
def le2 (v : Nat) : List Nat := [v % 256, v / 256 % 256]

/-- `u64::to_le_bytes`. -/
def le8 (v : Nat) : List Nat :=
  [v % 256, v / 256 % 256, v / 256 ^ 2 % 256, v / 256 ^ 3 % 256,
   v / 256 ^ 4 % 256, v / 256 ^ 5 % 256, v / 256 ^ 6 % 256, v / 256 ^ 7 % 256]

/-- `u16::from_le_bytes(self.data[pos..pos+2].try_into().unwrap())` where the
source writes an explicit two-byte range (`[..2]`, `[2..4]`): the slice has
length exactly 2, so only the range bound can fail. -/
def readU16R (xs : List Nat) (pos : Nat) : Except Err Nat :=
  if pos + 2 ≤ xs.length then
    Except.ok (xs.getD pos 0 + 256 * xs.getD (pos + 1) 0)
  else Except.error Err.rangeOob

/-- `u16::from_le_bytes(self.data[pos..].try_into().unwrap())`: the source
takes the whole tail of the buffer, and `<&[u8] as TryInto<[u8; 2]>>` succeeds
only if that tail has length exactly 2. -/
def readU16T (xs : List Nat) (pos : Nat) : Except Err Nat :=
  if pos ≤ xs.length then
    if xs.length = pos + 2 then
      Except.ok (xs.getD pos 0 + 256 * xs.getD (pos + 1) 0)
    else Except.error Err.sliceConv
  else Except.error Err.rangeOob

/-- `u64::from_le_bytes(self.data[pos..].try_into().unwrap())`: succeeds only
if exactly 8 bytes remain. -/
def readU64T (xs : List Nat) (pos : Nat) : Except Err Nat :=
  if pos ≤ xs.length then
    if xs.length = pos + 8 then
      Except.ok (xs.getD pos 0 + 256 * xs.getD (pos + 1) 0
        + 256 ^ 2 * xs.getD (pos + 2) 0 + 256 ^ 3 * xs.getD (pos + 3) 0
        + 256 ^ 4 * xs.getD (pos + 4) 0 + 256 ^ 5 * xs.getD (pos + 5) 0
        + 256 ^ 6 * xs.getD (pos + 6) 0 + 256 ^ 7 * xs.getD (pos + 7) 0)
    else Except.error Err.sliceConv
  else Except.error Err.rangeOob

/-- `self.data[pos..pos+k].copy_from_slice(src)` with `k = src.len()` (every
such call in the source uses a range of exactly the source length). -/
def writeBytes (xs : List Nat) (pos : Nat) (src : List Nat) : Except Err (List Nat) :=
  if pos + src.length ≤ xs.length then
    Except.ok (xs.take pos ++ src ++ xs.drop (pos + src.length))
  else Except.error Err.rangeOob

/-- `data[a..b].to_vec()`. -/
def sliceE (xs : List Nat) (a b : Nat) : Except Err (List Nat) :=
  if a ≤ b ∧ b ≤ xs.length then Except.ok ((xs.drop a).take (b - a))
  else Except.error Err.rangeOob

/-- u16 addition; overflow panics in a debug build. -/
def add16 (a b : Nat) : Except Err Nat :=
  if a + b ≤ 65535 then Except.ok (a + b) else Except.error Err.arithOver

/-- u16 subtraction; underflow panics in a debug build. -/
def sub16 (a b : Nat) : Except Err Nat :=
  if b ≤ a then Except.ok (a - b) else Except.error Err.arithOver

/-- `Vec<u8>::cmp`: lexicographic byte comparison. -/
def lexCmp : List Nat → List Nat → Ordering
  | [], [] => Ordering.eq
  | [], _ :: _ => Ordering.lt
  | _ :: _, [] => Ordering.gt
  | a :: as', b :: bs' =>
    match compare a b with
    | Ordering.eq => lexCmp as' bs'
    | o => o

/-- `BNode::btype`: `u16::from_le_bytes(self.data[..2].try_into().unwrap())`. -/
def btype (nd : BNode) : Except Err Nat := readU16R nd.data 0

/-- `BNode::nkeys`: `u16::from_le_bytes(self.data[2..4].try_into().unwrap())`. -/
def nkeys (nd : BNode) : Except Err Nat := readU16R nd.data 2

/-- `BNode::set_header`. -/
def set_header (nd : BNode) (bt keys : Nat) : Except Err BNode :=
  match writeBytes nd.data 0 (le2 bt) with
  | Except.error e => Except.error e
  | Except.ok d1 =>
    match writeBytes d1 2 (le2 keys) with
    | Except.error e => Except.error e
    | Except.ok d2 => Except.ok ⟨d2⟩

/-- `BNode::ptr_pose`. -/
def ptr_pose (idx : Nat) : Nat := HEADER + 8 * idx

/-- `BNode::get_ptr`: asserts `idx < self.nkeys()`, then reads the tail of the
buffer at `ptr_pose(idx)` as a `u64`. -/
def get_ptr (nd : BNode) (idx : Nat) : Except Err Nat :=
  match nkeys nd with
  | Except.error e => Except.error e
  | Except.ok n =>
    if idx < n then readU64T nd.data (ptr_pose idx)
    else Except.error Err.assertBound

/-- `BNode::set_ptr`. -/
def set_ptr (nd : BNode) (idx val : Nat) : Except Err BNode :=
  match nkeys nd with
  | Except.error e => Except.error e
  | Except.ok n =>
    if idx < n then
      match writeBytes nd.data (ptr_pose idx) (le8 val) with
      | Except.error e => Except.error e
      | Except.ok d => Except.ok ⟨d⟩
    else Except.error Err.assertBound

/-- `BNode::offset_pose`: asserts `1 <= idx && idx <= self.nkeys()`. -/
def offset_pose (nd : BNode) (idx : Nat) : Except Err Nat :=
  match nkeys nd with
  | Except.error e => Except.error e
  | Except.ok n =>
    if 1 ≤ idx ∧ idx ≤ n then Except.ok (HEADER + 8 * n + 2 * (idx - 1))
    else Except.error Err.assertBound

/-- `BNode::get_offset`: 0 at index 0, otherwise a whole-tail u16 read at
`offset_pose(idx)`. -/
def get_offset (nd : BNode) (idx : Nat) : Except Err Nat :=
  if idx = 0 then Except.ok 0
  else
    match offset_pose nd idx with
    | Except.error e => Except.error e
    | Except.ok pos => readU16T nd.data pos

/-- `BNode::set_offset`. -/
def set_offset (nd : BNode) (idx offset : Nat) : Except Err BNode :=
  match offset_pose nd idx with
  | Except.error e => Except.error e
  | Except.ok pos =>
    match writeBytes nd.data pos (le2 offset) with
    | Except.error e => Except.error e
    | Except.ok d => Except.ok ⟨d⟩

/-- `BNode::kv_pos`: asserts `idx <= self.nkeys()`. -/
def kv_pos (nd : BNode) (idx : Nat) : Except Err Nat :=
  match nkeys nd with
  | Except.error e => Except.error e
  | Except.ok n =>
    if idx ≤ n then
      match get_offset nd idx with
      | Except.error e => Except.error e
      | Except.ok off => Except.ok (HEADER + 8 * n + 2 * n + off)
    else Except.error Err.assertBound

/-- `BNode::get_key`: asserts `idx < self.nkeys()`, reads the key length as a
whole-tail u16 at `kv_pos(idx)`, then slices the key bytes. -/
def get_key (nd : BNode) (idx : Nat) : Except Err (List Nat) :=
  match nkeys nd with
  | Except.error e => Except.error e
  | Except.ok n =>
    if idx < n then
      match kv_pos nd idx with
      | Except.error e => Except.error e
      | Except.ok pos =>
        match readU16T nd.data pos with
        | Except.error e => Except.error e
        | Except.ok keyLen => sliceE nd.data (pos + 4) (pos + 4 + keyLen)
    else Except.error Err.assertBound

/-- `BNode::get_val`. -/
def get_val (nd : BNode) (idx : Nat) : Except Err (List Nat) :=
  match nkeys nd with
  | Except.error e => Except.error e
  | Except.ok n =>
    if idx < n then
      match kv_pos nd idx with
      | Except.error e => Except.error e
      | Except.ok pos =>
        match readU16T nd.data pos with
        | Except.error e => Except.error e
        | Except.ok keyLen =>
          match readU16T nd.data (pos + 2) with
          | Except.error e => Except.error e
          | Except.ok valLen =>
            sliceE nd.data (pos + 4 + keyLen) (pos + 4 + keyLen + valLen)
    else Except.error Err.assertBound

/-- `BNode::n_bytes`: `self.kv_pos(self.nkeys()) as u16`. -/
def n_bytes (nd : BNode) : Except Err Nat :=
  match nkeys nd with
  | Except.error e => Except.error e
  | Except.ok n =>
    match kv_pos nd n with
    | Except.error e => Except.error e
    | Except.ok p => Except.ok (p % 65536)

/-- The loop body of `node_lookup_le`: `for i in 1..nkeys`, keep the last
index whose key compares `<=` to the query, break at the first greater key. -/
def lookup_loop (nd : BNode) (key : List Nat) : Nat → Nat → Nat → Except Err Nat
  | found, _, 0 => Except.ok found
  | found, i, rem + 1 =>
    match get_key nd i with
    | Except.error e => Except.error e
    | Except.ok ki =>
      if lexCmp ki key = Ordering.gt then Except.ok found
      else lookup_loop nd key i (i + 1) rem

/-- `BNode::node_lookup_le`. -/
def node_lookup_le (nd : BNode) (key : List Nat) : Except Err Nat :=
  match nkeys nd with
  | Except.error e => Except.error e
  | Except.ok n => lookup_loop nd key 0 1 (n - 1)

/-- The pointer-copy loop of `node_append_range`:
`for i in 0..n { self.set_ptr(i, old.get_ptr(i)); }` — note the source copies
from index `i` to index `i`, not from `src_old + i` to `dst_new + i`. -/
def copy_ptrs (selfNd old : BNode) : Nat → Nat → Except Err BNode
  | _, 0 => Except.ok selfNd
  | i, rem + 1 =>
    match get_ptr old i with
    | Except.error e => Except.error e
    | Except.ok p =>
      match set_ptr selfNd i p with
      | Except.error e => Except.error e
      | Except.ok s2 => copy_ptrs s2 old (i + 1) rem

/-- The offset-copy loop of `node_append_range`: `for i in 1..n` sets
`self.set_offset(dst_new + i, dst_begin + old.get_offset(src_old + i) - src_begin)`. -/
def copy_offsets (selfNd old : BNode) (dstNew srcOld dstBegin srcBegin : Nat) :
    Nat → Nat → Except Err BNode
  | _, 0 => Except.ok selfNd
  | i, rem + 1 =>
    match add16 srcOld i with
    | Except.error e => Except.error e
    | Except.ok si =>
      match get_offset old si with
      | Except.error e => Except.error e
      | Except.ok o =>
        match add16 dstBegin o with
        | Except.error e => Except.error e
        | Except.ok t1 =>
          match sub16 t1 srcBegin with
          | Except.error e => Except.error e
          | Except.ok offset =>
            match add16 dstNew i with
            | Except.error e => Except.error e
            | Except.ok di =>
              match set_offset selfNd di offset with
              | Except.error e => Except.error e
              | Except.ok s2 =>
                copy_offsets s2 old dstNew srcOld dstBegin srcBegin (i + 1) rem

/-- `BNode::node_append_range`: asserts `src_old + n < old.nkeys()` and
`dst_new + n < self.nkeys()` (both strict), returns early when `n == 0`,
copies pointers (from index `i` to index `i`), copies offsets for
`i in 1..n`, then executes `self.data.copy_from_slice(&old.data[begin..end])`
— a copy over the *entire* destination buffer, which panics unless
`end - begin` equals the destination buffer length. -/
def node_append_range (selfNd old : BNode) (dstNew srcOld n : Nat) : Except Err BNode :=
  match add16 srcOld n with
  | Except.error e => Except.error e
  | Except.ok sN =>
    match nkeys old with
    | Except.error e => Except.error e
    | Except.ok oldK =>
      if sN < oldK then
        match add16 dstNew n with
        | Except.error e => Except.error e
        | Except.ok dN =>
          match nkeys selfNd with
          | Except.error e => Except.error e
          | Except.ok selfK =>
            if dN < selfK then
              if n = 0 then Except.ok selfNd
              else
                match copy_ptrs selfNd old 0 n with
                | Except.error e => Except.error e
                | Except.ok s1 =>
                  match get_offset s1 dstNew with
                  | Except.error e => Except.error e
                  | Except.ok dstBegin =>
                    match get_offset old srcOld with
                    | Except.error e => Except.error e
                    | Except.ok srcBegin =>
                      match copy_offsets s1 old dstNew srcOld dstBegin srcBegin 1 (n - 1) with
                      | Except.error e => Except.error e
                      | Except.ok s2 =>
                        match kv_pos old srcOld with
                        | Except.error e => Except.error e
                        | Except.ok b =>
                          match kv_pos old sN with
                          | Except.error e => Except.error e
                          | Except.ok en =>
                            if b ≤ en ∧ en ≤ old.data.length then
                              if (en - b : Nat) = s2.data.length then
                                Except.ok ⟨(old.data.drop b).take (en - b)⟩
                              else Except.error Err.copyLen
                            else Except.error Err.rangeOob
            else Except.error Err.assertBound
      else Except.error Err.assertBound

/-- `BNode::node_append_kv`: writes the pointer, the length-prefixed key and
value at `kv_pos(idx)`, then `set_offset(idx + 1, get_offset(idx) + 4 +
key.len() as u16 + val.len() as u16)`. -/
def node_append_kv (selfNd : BNode) (idx ptr : Nat) (key val : List Nat) : Except Err BNode :=
  match set_ptr selfNd idx ptr with
  | Except.error e => Except.error e
  | Except.ok s1 =>
    match kv_pos s1 idx with
    | Except.error e => Except.error e
    | Except.ok pos =>
      match writeBytes s1.data pos (le2 (key.length % 65536)) with
      | Except.error e => Except.error e
      | Except.ok d1 =>
        match writeBytes d1 (pos + 2) (le2 (val.length % 65536)) with
        | Except.error e => Except.error e
        | Except.ok d2 =>
          match writeBytes d2 (pos + 4) key with
          | Except.error e => Except.error e
          | Except.ok d3 =>
            match writeBytes d3 (pos + 4 + key.length) val with
            | Except.error e => Except.error e
            | Except.ok d4 =>
              match get_offset ⟨d4⟩ idx with
              | Except.error e => Except.error e
              | Except.ok o =>
                match add16 o 4 with
                | Except.error e => Except.error e
                | Except.ok t1 =>
                  match add16 t1 (key.length % 65536) with
                  | Except.error e => Except.error e
                  | Except.ok t2 =>
                    match add16 t2 (val.length % 65536) with
                    | Except.error e => Except.error e
                    | Except.ok t3 =>
                      match add16 idx 1 with
                      | Except.error e => Except.error e
                      | Except.ok i1 => set_offset ⟨d4⟩ i1 t3

/-- `BNode::leaf_insert`. -/
def leaf_insert (selfNd old : BNode) (idx : Nat) (key val : List Nat) : Except Err BNode :=
  match nkeys old with
  | Except.error e => Except.error e
  | Except.ok oldK =>
    match add16 oldK 1 with
    | Except.error e => Except.error e
    | Except.ok k1 =>
      match set_header selfNd 2 k1 with
      | Except.error e => Except.error e
      | Except.ok s1 =>
        match node_append_range s1 old 0 0 idx with
        | Except.error e => Except.error e
        | Except.ok s2 =>
          match node_append_kv s2 idx 0 key val with
          | Except.error e => Except.error e
          | Except.ok s3 =>
            match add16 idx 1 with
            | Except.error e => Except.error e
            | Except.ok i1 =>
              match nkeys old with
              | Except.error e => Except.error e
              | Except.ok oldK2 =>
                match sub16 oldK2 idx with
                | Except.error e => Except.error e
                | Except.ok nmi => node_append_range s3 old i1 idx nmi

/-- The part of `BNode::leaf_update` after the conditional prefix copy: the
`node_append_kv` of the replacement entry followed by
`node_append_range(old, idx + 1, idx + 1, old.nkeys() - idx)`. -/
def leaf_update_rest (old : BNode) (idx : Nat) (key val : List Nat) (s2 : BNode) :
    Except Err BNode :=
  match node_append_kv s2 idx 0 key val with
  | Except.error e => Except.error e
  | Except.ok s3 =>
    match add16 idx 1 with
    | Except.error e => Except.error e
    | Except.ok i1 =>
      match nkeys old with
      | Except.error e => Except.error e
      | Except.ok oldK2 =>
        match sub16 oldK2 idx with
        | Except.error e => Except.error e
        | Except.ok nmi => node_append_range s3 old i1 i1 nmi

/-- `BNode::leaf_update`. -/
def leaf_update (selfNd old : BNode) (idx : Nat) (key val : List Nat) : Except Err BNode :=
  match nkeys old with
  | Except.error e => Except.error e
  | Except.ok oldK =>
    match set_header selfNd 2 oldK with
    | Except.error e => Except.error e
    | Except.ok s1 =>
      if 0 < idx then
        match sub16 idx 1 with
        | Except.error e => Except.error e
        | Except.ok im1 =>
          match node_append_range s1 old 0 0 im1 with
          | Except.error e => Except.error e
          | Except.ok s2 => leaf_update_rest old idx key val s2
      else leaf_update_rest old idx key val s1

/-- `BNode::node_split_2` is `todo!()` in the source. -/
def node_split_2 (_selfNd _left _right : BNode) : Except Err (BNode × BNode) :=
  Except.error Err.todoPanic

/-- `BNode::node_split_3`: return `(1, [self])` when `n_bytes() <= PAGE`;
otherwise split via `node_split_2` (which is `todo!()`). The post-split code
is kept for fidelity but is unreachable. -/
def node_split_3 (selfNd : BNode) : Except Err (Nat × List BNode) :=
  match n_bytes selfNd with
  | Except.error e => Except.error e
  | Except.ok nb =>
    if nb ≤ BTREE_PAGE_SIZE then Except.ok (1, [selfNd])
    else
      match node_split_2 selfNd ⟨List.replicate (2 * BTREE_PAGE_SIZE) 0⟩
          ⟨List.replicate BTREE_PAGE_SIZE 0⟩ with
      | Except.error e => Except.error e
      | Except.ok (left, right) =>
        match n_bytes left with
        | Except.error e => Except.error e
        | Except.ok lb =>
          if lb ≤ BTREE_PAGE_SIZE then
            match sliceE left.data 0 BTREE_PAGE_SIZE with
            | Except.error e => Except.error e
            | Except.ok d => Except.ok (2, [⟨d⟩, right])
          else
            match node_split_2 selfNd ⟨List.replicate BTREE_PAGE_SIZE 0⟩
                ⟨List.replicate BTREE_PAGE_SIZE 0⟩ with
            | Except.error e => Except.error e
            | Except.ok (leftLeft, middle) =>
              match n_bytes leftLeft with
              | Except.error e => Except.error e
              | Except.ok llb =>
                if llb ≤ BTREE_PAGE_SIZE then Except.ok (3, [leftLeft, middle, right])
                else Except.error Err.assertBound

inductive NodeType where
  | node  -- = 1
  | leaf  -- = 2
deriving Repr, DecidableEq

/-- `impl From<u16> for NodeType`: 1 and 2 map to the variants, everything
else hits `panic!("Invalid value")`. -/
def nodeTypeFromU16 (v : Nat) : Except Err NodeType :=
  match v with
  | 1 => Except.ok NodeType.node
  | 2 => Except.ok NodeType.leaf
  | _ => Except.error Err.invalidValue

/-- `NodeType::try_from` comes from the blanket `impl TryFrom<U> for T where
U: Into<T>` with `Error = Infallible` (embedded as `Empty`): it returns
`Ok(From::from(v))`, so any panic comes from `From` and an `Err` value is
never produced. -/
def nodeTypeTryFrom (v : Nat) : Except Err (NodeType ⊕ Empty) :=
  match nodeTypeFromU16 v with
  | Except.error e => Except.error e
  | Except.ok nt => Except.ok (Sum.inl nt)

/-- A page-manager call, recorded in order. -/
inductive PMEvent where
  | fetch (id : Nat)
  | alloc (id : Nat)
  | release (id : Nat)
deriving Repr, DecidableEq

/-- Modelled from the spec: the page-manager collaborator of section 6.
`BTree::new`, `BTree::get` and `BTree::del` are `todo!()` in the source, and
the spec declares page allocation/lookup/release an external collaborator, so
its state (an id-to-node store, a fresh-id counter, and the call trace) is
modelled here from the spec's interface. -/
structure PM where
  store : List (Nat × BNode)
  nextId : Nat
  trace : List PMEvent
deriving Repr, DecidableEq

def lookupStore : List (Nat × BNode) → Nat → Option BNode
  | [], _ => none
  | (i, nd) :: rest, id => if i = id then some nd else lookupStore rest id

def removeStore : List (Nat × BNode) → Nat → List (Nat × BNode)
  | [], _ => []
  | (i, nd) :: rest, id => if i = id then rest else (i, nd) :: removeStore rest id

/-- Modelled from the spec: `fetch(page_id) -> node`, failing with
PageNotFound on an unknown id (spec section 6); stands in for the `todo!()`
body of `BTree::get`. -/
def pmGet (pm : PM) (id : Nat) : Except Err BNode × PM :=
  let pm1 : PM := ⟨pm.store, pm.nextId, pm.trace ++ [PMEvent.fetch id]⟩
  match lookupStore pm.store id with
  | some nd => (Except.ok nd, pm1)
  | none => (Except.error Err.pageNotFound, pm1)

/-- Modelled from the spec: `allocate(node) -> page_id` (spec section 6);
stands in for the `todo!()` body of `BTree::new`. -/
def pmNew (pm : PM) (nd : BNode) : Nat × PM :=
  (pm.nextId, ⟨pm.store ++ [(pm.nextId, nd)], pm.nextId + 1,
    pm.trace ++ [PMEvent.alloc pm.nextId]⟩)

/-- Modelled from the spec: `release(page_id)` marks an id reclaimable (spec
section 6); stands in for the `todo!()` body of `BTree::del`. -/
def pmDel (pm : PM) (id : Nat) : PM :=
  ⟨removeStore pm.store id, pm.nextId, pm.trace ++ [PMEvent.release id]⟩

/-- The per-kid loop of `node_replace_kid_n`:
`new_node.node_append_kv(idx + i as u16, self.new(node), node.get_key(0), vec![])`. -/
def replace_kid_loop (idx : Nat) : PM → BNode → Nat → List BNode → Except Err BNode × PM
  | pm, nn, _, [] => (Except.ok nn, pm)
  | pm, nn, i, kid :: rest =>
    match add16 idx i with
    | Except.error e => (Except.error e, pm)
    | Except.ok pos =>
      let (pid, pm1) := pmNew pm kid
      match get_key kid 0 with
      | Except.error e => (Except.error e, pm1)
      | Except.ok k0 =>
        match node_append_kv nn pos pid k0 [] with
        | Except.error e => (Except.error e, pm1)
        | Except.ok nn2 => replace_kid_loop idx pm1 nn2 (i + 1) rest

/-- `BTree::node_replace_kid_n`. -/
def node_replace_kid_n (pm : PM) (newNode old : BNode) (idx : Nat) (kids : List BNode) :
    Except Err BNode × PM :=
  let inc := kids.length % 65536
  match nkeys old with
  | Except.error e => (Except.error e, pm)
  | Except.ok oldK =>
    match add16 oldK inc with
    | Except.error e => (Except.error e, pm)
    | Except.ok t =>
      match sub16 t 1 with
      | Except.error e => (Except.error e, pm)
      | Except.ok hdr =>
        match set_header newNode 1 hdr with
        | Except.error e => (Except.error e, pm)
        | Except.ok s1 =>
          match node_append_range s1 old 0 0 idx with
          | Except.error e => (Except.error e, pm)
          | Except.ok s2 =>
            match replace_kid_loop idx pm s2 0 kids with
            | (Except.error e, pm2) => (Except.error e, pm2)
            | (Except.ok s3, pm2) =>
              match add16 idx inc with
              | Except.error e => (Except.error e, pm2)
              | Except.ok a =>
                match add16 idx 1 with
                | Except.error e => (Except.error e, pm2)
                | Except.ok b =>
                  match nkeys old with
                  | Except.error e => (Except.error e, pm2)
                  | Except.ok oldK2 =>
                    match sub16 oldK2 b with
                    | Except.error e => (Except.error e, pm2)
                    | Except.ok c => (node_append_range s3 old a b c, pm2)

/-- `BTree::node_insert`, abstracted over the recursive `tree_insert` call.
The source takes `new_node` by immutable reference and never touches it, and
discards the node returned by the recursive insert. -/
def node_insert_aux (rec' : PM → BNode → List Nat → List Nat → Except Err BNode × PM)
    (pm : PM) (_newNode node : BNode) (idx : Nat) (key val : List Nat) :
    Except Err Unit × PM :=
  match get_ptr node idx with
  | Except.error e => (Except.error e, pm)
  | Except.ok kidPtr =>
    match pmGet pm kidPtr with
    | (Except.error e, pm1) => (Except.error e, pm1)
    | (Except.ok kidNode, pm1) =>
      let pm2 := pmDel pm1 kidPtr
      match rec' pm2 kidNode key val with
      | (Except.error e, pm3) => (Except.error e, pm3)
      | (Except.ok _, pm3) => (Except.ok (), pm3)

/-- `BTree::tree_insert`, with a fuel bound on the (unbounded in the source)
recursion through the page store. Allocates the two-page scratch buffer,
computes `node_lookup_le`, dispatches on `NodeType::try_from(node.btype())`,
and returns the scratch buffer `new_node` (which the Internal arm of the
source never writes to). -/
def tree_insert : Nat → PM → BNode → List Nat → List Nat → Except Err BNode × PM
  | 0, pm, _, _, _ => (Except.error Err.fuelOut, pm)
  | fuel + 1, pm, node, key, val =>
    let newNode : BNode := ⟨List.replicate (2 * BTREE_PAGE_SIZE) 0⟩
    match node_lookup_le node key with
    | Except.error e => (Except.error e, pm)
    | Except.ok idx =>
      match btype node with
      | Except.error e => (Except.error e, pm)
      | Except.ok bt =>
        match nodeTypeTryFrom bt with
        | Except.error e => (Except.error e, pm)
        | Except.ok (Sum.inr _) => (Except.error Err.nodeError, pm)
        | Except.ok (Sum.inl NodeType.leaf) =>
          (match get_key node idx with
           | Except.error e => Except.error e
           | Except.ok k0 =>
             if key = k0 then leaf_update newNode node idx key val
             else
               match add16 idx 1 with
               | Except.error e => Except.error e
               | Except.ok i1 => leaf_insert newNode node i1 key val
           , pm)
        | Except.ok (Sum.inl NodeType.node) =>
          match node_insert_aux (tree_insert fuel) pm newNode node idx key val with
          | (Except.error e, pm2) => (Except.error e, pm2)
          | (Except.ok _, pm2) => (Except.ok newNode, pm2)

/-- `BTree::node_insert` at a given fuel. -/
def node_insert (fuel : Nat) : PM → BNode → BNode → Nat → List Nat → List Nat →
    Except Err Unit × PM :=
  fun pm newNode node idx key val =>
    node_insert_aux (tree_insert fuel) pm newNode node idx key val

/-- A filesystem call made by the save strategies, recorded in order. -/
inductive FsEvent where
  | create (path : String)
  | write (path : String) (data : List Nat)
  | sync (path : String)
  | rename (src dst : String)
  | remove (path : String)
deriving Repr, DecidableEq

structure Fs where
  files : List (String × List Nat)
  events : List FsEvent
deriving Repr, DecidableEq

def setFile : List (String × List Nat) → String → List Nat → List (String × List Nat)
  | [], p, d => [(p, d)]
  | (q, c) :: rest, p, d => if q = p then (p, d) :: rest else (q, c) :: setFile rest p d

def getFile : List (String × List Nat) → String → Option (List Nat)
  | [], _ => none
  | (q, c) :: rest, p => if q = p then some c else getFile rest p

def delFile : List (String × List Nat) → String → List (String × List Nat)
  | [], _ => []
  | (q, c) :: rest, p => if q = p then rest else (q, c) :: delFile rest p

/-- `File::create(p)`: creates or truncates `p` (modelled as infallible). -/
def fsCreate (fs : Fs) (p : String) : Fs :=
  ⟨setFile fs.files p [], fs.events ++ [FsEvent.create p]⟩

/-- `fp.write_all(data)`: appends at the cursor of the freshly created file
(modelled as infallible; device errors are out of scope). -/
def fsWriteAll (fs : Fs) (p : String) (d : List Nat) : Except Err Unit × Fs :=
  (Except.ok (), ⟨setFile fs.files p ((getFile fs.files p).getD [] ++ d),
    fs.events ++ [FsEvent.write p d]⟩)

/-- `fp.sync_all()` (modelled as infallible). -/
def fsSync (fs : Fs) (p : String) : Except Err Unit × Fs :=
  (Except.ok (), ⟨fs.files, fs.events ++ [FsEvent.sync p]⟩)

/-- `fs::rename(src, dst)`: fails (with no filesystem effect) when `src` does
not exist. -/
def fsRename (fs : Fs) (src dst : String) : Except Err Unit × Fs :=
  match getFile fs.files src with
  | some c =>
    (Except.ok (), ⟨setFile (delFile fs.files src) dst c,
      fs.events ++ [FsEvent.rename src dst]⟩)
  | none => (Except.error Err.ioNotFound, fs)

/-- `fs::remove_file(p)`: fails when `p` does not exist. -/
def fsRemove (fs : Fs) (p : String) : Except Err Unit × Fs :=
  match getFile fs.files p with
  | some _ => (Except.ok (), ⟨delFile fs.files p, fs.events ++ [FsEvent.remove p]⟩)
  | none => (Except.error Err.ioNotFound, fs)

/-- `save_data_2` of `src/src/tests/mod.rs` (strategy b): builds the temporary
name, then executes `File::create(&path)` — the destination itself, not the
temporary — writes the data there, and on success renames `tmp` to `path`. -/
def save_data_2 (fs : Fs) (path : String) (data : List Nat) (randomInt : Nat) :
    Except Err Unit × Fs :=
  let tmp := path ++ ".tmp." ++ toString randomInt
  let fs1 := fsCreate fs path
  match fsWriteAll fs1 path data with
  | (Except.ok _, fs2) =>
    match fsRename fs2 tmp path with
    | (Except.ok _, fs3) => (Except.ok (), fs3)
    | (Except.error e, fs3) => (Except.error e, fs3)
  | (Except.error _, fs2) =>
    match fsRemove fs2 tmp with
    | (Except.ok _, fs3) => (Except.ok (), fs3)
    | (Except.error e, fs3) => (Except.error e, fs3)

/-- `save_data_3` of `src/src/tests/mod.rs` (strategy c): like `save_data_2`
but with `fp.sync_all()` between the write and the rename; it also opens the
destination itself with `File::create(&path)`. -/
def save_data_3 (fs : Fs) (path : String) (data : List Nat) (randomInt : Nat) :
    Except Err Unit × Fs :=
  let tmp := path ++ ".tmp." ++ toString randomInt
  let fs1 := fsCreate fs path
  match fsWriteAll fs1 path data with
  | (Except.ok _, fs2) =>
    match fsSync fs2 path with
    | (Except.ok _, fs3) =>
      match fsRename fs3 tmp path with
      | (Except.ok _, fs4) => (Except.ok (), fs4)
      | (Except.error e, fs4) => (Except.error e, fs4)
    | (Except.error _, fs3) =>
      match fsRemove fs3 tmp with
      | (Except.ok _, fs4) => (Except.ok (), fs4)
      | (Except.error e, fs4) => (Except.error e, fs4)
  | (Except.error _, fs2) =>
    match fsRemove fs2 tmp with
    | (Except.ok _, fs3) => (Except.ok (), fs3)
    | (Except.error e, fs3) => (Except.error e, fs3)

/-- Modelled from the spec: the total encoded byte length of a node per the
section 6 on-disk layout — header (4 bytes), `8N` pointer bytes, `2N` offset
bytes, plus the key-value region, whose end is the cumulative offset of index
`N`. Reads the buffer leniently (no panics); this is the spec-side meaning of
`encoded size`, to be compared with the source's `n_bytes`. -/
def spec_encoded_size (nd : BNode) : Nat :=
  let n := nd.data.getD 2 0 + 256 * nd.data.getD 3 0
  let endOff :=
    if n = 0 then 0
    else nd.data.getD (4 + 8 * n + 2 * (n - 1)) 0
      + 256 * nd.data.getD (4 + 8 * n + 2 * (n - 1) + 1) 0
  HEADER + 10 * n + endOff

/-- Modelled from the spec: the key stored at index `i` per the section 6
on-disk layout (length-prefixed record at the cumulative offset), read
leniently; used to state what a correct lookup would compare. -/
def spec_get_key (nd : BNode) (i : Nat) : List Nat :=
  let n := nd.data.getD 2 0 + 256 * nd.data.getD 3 0
  let off :=
    if i = 0 then 0
    else nd.data.getD (4 + 8 * n + 2 * (i - 1)) 0
      + 256 * nd.data.getD (4 + 8 * n + 2 * (i - 1) + 1) 0
  let pos := HEADER + 8 * n + 2 * n + off
  let klen := nd.data.getD pos 0 + 256 * nd.data.getD (pos + 1) 0
  (nd.data.drop (pos + 4)).take klen

/-- Spec section 5 resource discipline as a trace predicate: every `release`
call is preceded by at least one `alloc` call (the replacements are allocated
before the superseded page is released). -/
def releaseAfterAlloc : Bool → List PMEvent → Bool
  | _, [] => true
  | allocSeen, PMEvent.release _ :: rest => allocSeen && releaseAfterAlloc allocSeen rest
  | _, PMEvent.alloc _ :: rest => releaseAfterAlloc true rest
  | allocSeen, PMEvent.fetch _ :: rest => releaseAfterAlloc allocSeen rest

/-- Whether the destination path is created or written before any rename in a
filesystem trace (the rename-based strategies must keep this `false`). -/
def destTouchedBeforeRename (path : String) : List FsEvent → Bool
  | [] => false
  | FsEvent.rename _ _ :: _ => false
  | FsEvent.create p :: rest =>
    if p = path then true else destTouchedBeforeRename path rest
  | FsEvent.write p _ :: rest =>
    if p = path then true else destTouchedBeforeRename path rest
  | FsEvent.sync _ :: rest => destTouchedBeforeRename path rest
  | FsEvent.remove _ :: rest => destTouchedBeforeRename path rest

/-- A one-entry leaf: key `[97]`, value `[98]`, correctly encoded in a
20-byte buffer per the section 6 layout. -/
def leaf1 : BNode :=
  ⟨[2, 0, 1, 0, 0, 0, 0, 0, 0, 0, 0, 0, 6, 0, 1, 0, 1, 0, 97, 98]⟩

/-- A two-entry leaf: keys `[97]` and `[99]` (sorted, unique) with values
`[98]` and `[100]`, correctly encoded in a 36-byte buffer. -/
def leaf2 : BNode :=
  ⟨[2, 0, 2, 0, 0, 0, 0, 0, 0, 0, 0, 0, 0, 0, 0, 0, 0, 0, 0, 0,
    6, 0, 12, 0, 1, 0, 1, 0, 97, 98, 1, 0, 1, 0, 99, 100]⟩

/-- An empty leaf: header only, key_count 0. -/
def leaf0 : BNode := ⟨[2, 0, 0, 0]⟩

/-- An internal node with key_count 1 whose single child pointer is page 7
(12-byte buffer: header plus one little-endian u64 pointer). -/
def inode1 : BNode := ⟨[1, 0, 1, 0, 7, 0, 0, 0, 0, 0, 0, 0]⟩

/-- A destination scratch buffer: 64 zero bytes with header (Leaf, 2 keys). -/
def dest2 : BNode := ⟨[2, 0, 2, 0] ++ List.replicate 60 0⟩

/-- A 64-byte all-zero scratch buffer. -/
def scratch64 : BNode := ⟨List.replicate 64 0⟩

/-- A page manager holding the single leaf `leaf0` at page id 7. -/
def pm1 : PM := ⟨[(7, leaf0)], 8, []⟩

/-- An empty filesystem. -/
def fs0 : Fs := ⟨[], []⟩

theorem add16_ok {a b c : Nat} (h : add16 a b = Except.ok c) : c = a + b := by
  unfold add16 at h
  split at h
  · injection h with h1
    exact h1.symm
  · simp at h

theorem sub16_ok {a b c : Nat} (h : sub16 a b = Except.ok c) : b ≤ a ∧ c = a - b := by
  unfold sub16 at h
  split at h
  next hle =>
    injection h with h1
    exact ⟨hle, h1.symm⟩
  next => simp at h

/-- The first assertion of `node_append_range`, `src_old + n < old.nkeys()`,
is strict: whenever `old.nkeys() ≤ src_old + n` the call faults. -/
theorem node_append_range_src_assert_fails (s o : BNode) (d src n K : Nat)
    (hK : nkeys o = Except.ok K) (h : K ≤ src + n) :
    ∃ e, node_append_range s o d src n = Except.error e := by
  unfold node_append_range
  split
  next e heq => exact ⟨e, rfl⟩
  next sN heq =>
    split
    next e heq2 => exact ⟨e, rfl⟩
    next K2 heq2 =>
      have hsN : sN = src + n := add16_ok heq
      rw [hK] at heq2
      injection heq2 with hKe
      split
      next hlt => exact absurd hlt (by omega)
      next hnlt => exact ⟨Err.assertBound, rfl⟩

/-- `leaf_insert` faults on every input: its final
`node_append_range(old, idx + 1, idx, old.nkeys() - idx)` always trips the
strict assertion `src_old + n < old.nkeys()` (here `idx + (nkeys - idx) =
nkeys`), and every earlier step can only fault, not succeed differently. -/
theorem leaf_insert_always_fails (s o : BNode) (idx : Nat) (key val : List Nat) :
    ∃ e, leaf_insert s o idx key val = Except.error e := by
  unfold leaf_insert
  split
  next e h1 => exact ⟨e, rfl⟩
  next K h1 =>
    split
    next e h2 => exact ⟨e, rfl⟩
    next k1 h2 =>
      split
      next e h3 => exact ⟨e, rfl⟩
      next s1 h3 =>
        split
        next e h4 => exact ⟨e, rfl⟩
        next s2 h4 =>
          split
          next e h5 => exact ⟨e, rfl⟩
          next s3 h5 =>
            split
            next e h6 => exact ⟨e, rfl⟩
            next i1 h6 =>
              split
              next e h7 => exact ⟨e, rfl⟩
              next K2 h7 =>
                split
                next e h8 => exact ⟨e, rfl⟩
                next nmi h8 =>
                  injection h7 with h7e
                  obtain ⟨hle, hnmi⟩ := sub16_ok h8
                  exact node_append_range_src_assert_fails s3 o i1 idx nmi K h1 (by omega)

/-- The tail of `leaf_update` faults on every input: its final
`node_append_range(old, idx + 1, idx + 1, old.nkeys() - idx)` always trips
the strict assertion (`(idx + 1) + (nkeys - idx) = nkeys + 1 > nkeys`). -/
theorem leaf_update_rest_fails (o : BNode) (idx : Nat) (key val : List Nat) (s2 : BNode) :
    ∃ e, leaf_update_rest o idx key val s2 = Except.error e := by
  unfold leaf_update_rest
  split
  next e h5 => exact ⟨e, rfl⟩
  next s3 h5 =>
    split
    next e h6 => exact ⟨e, rfl⟩
    next i1 h6 =>
      split
      next e h1 => exact ⟨e, rfl⟩
      next K h1 =>
        split
        next e h7 => exact ⟨e, rfl⟩
        next nmi h7 =>
          obtain ⟨hle, hnmi⟩ := sub16_ok h7
          have hi1 : i1 = idx + 1 := add16_ok h6
          exact node_append_range_src_assert_fails s3 o i1 i1 nmi K h1 (by omega)

/-- `leaf_update` faults on every input. -/
theorem leaf_update_always_fails (s o : BNode) (idx : Nat) (key val : List Nat) :
    ∃ e, leaf_update s o idx key val = Except.error e := by
  unfold leaf_update
  split
  next e h1 => exact ⟨e, rfl⟩
  next K h1 =>
    split
    next e h2 => exact ⟨e, rfl⟩
    next s1 h2 =>
      split
      next hidx =>
        split
        next e h3 => exact ⟨e, rfl⟩
        next im1 h3 =>
          split
          next e h4 => exact ⟨e, rfl⟩
          next s2 h4 => exact leaf_update_rest_fails o idx key val s2
      next hidx => exact leaf_update_rest_fails o idx key val s1

/-- Claim C1: the claim states that for every leaf `old` with `n` keys and
`idx ≤ n`, `leaf_insert(old, idx, key, value)` yields a leaf with `n + 1`
entries (prefix unchanged, new entry at `idx`, suffix shifted). On the code
this fails everywhere: `leaf_insert` faults on every input, because its final
`node_append_range(old, idx + 1, idx, old.nkeys() - idx)` trips the strict
assertion `src_old + n < old.nkeys()`; concretely, inserting key `[96]` at
index 0 of the one-entry leaf `leaf1` panics on that assertion instead of
producing a two-entry leaf. -/
theorem c1_leaf_insert_never_inserts :
    (∀ (s o : BNode) (idx : Nat) (key val : List Nat),
      ∃ e, leaf_insert s o idx key val = Except.error e) ∧
    leaf_insert scratch64 leaf1 0 [96] [120] = Except.error Err.assertBound :=
  ⟨leaf_insert_always_fails, rfl⟩

/-- Claim C2: the claim states that `leaf_update(old, idx, key, value)` keeps
the key count and all entries except index `idx`. On the code this fails
everywhere: `leaf_update` faults on every input, because its final
`node_append_range(old, idx + 1, idx + 1, old.nkeys() - idx)` trips the
strict assertion (`nkeys + 1 < nkeys` is false); concretely, updating index 0
of the one-entry leaf `leaf1` with its own key `[97]` panics on that
assertion instead of producing the updated leaf. (The prefix copy is also
wrong: `node_append_range(old, 0, 0, idx - 1)` copies `idx - 1` entries, not
the `idx` entries of `[0, idx)`.) -/
theorem c2_leaf_update_never_updates :
    (∀ (s o : BNode) (idx : Nat) (key val : List Nat),
      ∃ e, leaf_update s o idx key val = Except.error e) ∧
    leaf_update scratch64 leaf1 0 [97] [120] = Except.error Err.assertBound :=
  ⟨leaf_update_always_fails, rfl⟩

/-- Claim C3: the claim states `node_split_3` returns exactly one node iff
the input's encoded size is at most 4096 bytes, that node being the input.
On the code this fails: the one-entry leaf `leaf1` has encoded size 20 ≤ 4096
per the spec's layout (`spec_encoded_size`), yet `node_split_3` panics on it,
because `n_bytes → kv_pos → get_offset` reads the offset with
`self.data[pos..].try_into().unwrap()`, which requires the tail of the buffer
to be exactly 2 bytes and so fails on any normally encoded nonempty node. -/
theorem c3_node_split_3_faults_on_fitting_node :
    spec_encoded_size leaf1 = 20 ∧ 20 ≤ BTREE_PAGE_SIZE ∧
    node_split_3 leaf1 = Except.error Err.sliceConv :=
  ⟨rfl, by decide, rfl⟩

/-- Claim C4: the claim states that for a sorted run of unique keys,
`node_lookup_le` returns the greatest index in `1..key_count` whose key is
`≤` the query. On the code this fails: `leaf2` holds the sorted unique keys
`[97]`, `[99]`, and for query `[99]` the greatest qualifying index is 1 (its
key, read per the spec layout by `spec_get_key`, equals the query), yet
`node_lookup_le` panics at `get_key(1)`, whose whole-tail slice conversion
requires exactly 2 remaining bytes. -/
theorem c4_node_lookup_le_faults :
    spec_get_key leaf2 1 = [99] ∧
    node_lookup_le leaf2 [99] = Except.error Err.sliceConv :=
  ⟨rfl, rfl⟩

/-- Claim C5: the claim states that `node_append_range(source, dest_start,
source_start, count)` copies `count` in-range entries. On the code this
fails: copying the single entry of the one-entry leaf `leaf1`
(`source_start = 0`, `count = 1`, so `source_start + count ≤ source.nkeys()`
is in range) into `dest2` (which has 2 keys, `dest_start = 1` in range)
panics, because the assertion demands the strict `src_old + n < old.nkeys()`.
(Past the assertions the body is also wrong: pointers are copied from index
`i` to index `i` instead of `src_old + i` to `dst_new + i`, and the key-value
bytes are copied over the whole destination buffer.) -/
theorem c5_node_append_range_rejects_in_range :
    nkeys leaf1 = Except.ok 1 ∧ nkeys dest2 = Except.ok 2 ∧
    node_append_range dest2 leaf1 1 0 1 = Except.error Err.assertBound :=
  ⟨rfl, rfl, rfl⟩

/-- Claim C6: the claim states that inserting into an internal node
reconciles the child's replacement via `node_replace_kid_n` and splits, so
the returned node reflects the replacement. On the code this fails:
inserting into `inode1` (internal, child page 7 holding `leaf0`) fetches and
releases the child and recursively inserts, but `node_insert` discards the
recursive result, never calls `node_replace_kid_n` or `node_split_3` (the
trace shows no `alloc`), takes `new_node` by immutable reference, and here
the insert aborts with the recursive leaf fault. -/
theorem c6_internal_insert_discards_replacement :
    (tree_insert 2 pm1 inode1 [10] [20]).1 = Except.error Err.assertBound ∧
    (tree_insert 2 pm1 inode1 [10] [20]).2.trace =
      [PMEvent.fetch 7, PMEvent.release 7] :=
  ⟨rfl, rfl⟩

/-- Claim C7: the claim states that during an insert into an internal node no
release of the superseded child precedes the allocation of its replacements.
On the code this fails: `node_insert` calls `self.del(kid_ptr)` immediately
after fetching the child and before the recursive insert, and no allocation
ever happens, so the page-manager trace of the insert into `inode1` violates
the release-only-after-alloc discipline. -/
theorem c7_release_precedes_alloc :
    releaseAfterAlloc false (tree_insert 2 pm1 inode1 [10] [20]).2.trace = false :=
  rfl

/-- Claim C8: the claim states that `save_data_2` and `save_data_3` write the
data to a temporary file and only rename it to the destination afterwards,
never creating or writing the destination directly. On the code this fails:
both functions run `File::create(&path)` on the destination itself and write
the data there, then attempt `fs::rename(tmp, &path)` with a temporary that
was never created, which fails; the traces show the destination created and
written before any rename. -/
theorem c8_save_strategies_write_destination_directly :
    destTouchedBeforeRename "db" (save_data_2 fs0 "db" [1, 2, 3] 5).2.events = true ∧
    destTouchedBeforeRename "db" (save_data_3 fs0 "db" [1, 2, 3] 5).2.events = true ∧
    (save_data_2 fs0 "db" [1, 2, 3] 5).1 = Except.error Err.ioNotFound ∧
    (save_data_3 fs0 "db" [1, 2, 3] 5).1 = Except.error Err.ioNotFound :=
  ⟨rfl, rfl, rfl, rfl⟩

/-- Claim C9: for every leaf node with key count 0, `tree_insert` faults with
the bounds-violation assertion of `get_key` at index 0 (the index-accessor
assertion `idx < self.nkeys()` with `0 < 0`), rather than inserting the key:
`node_lookup_le` returns 0 without comparing anything, the Leaf arm evaluates
`node.get_key(0)`, and the assertion fires. -/
theorem c9_tree_insert_empty_leaf_asserts (fuel : Nat) (pm : PM) (node : BNode)
    (key val : List Nat) (h0 : nkeys node = Except.ok 0)
    (h2 : btype node = Except.ok 2) :
    (tree_insert (fuel + 1) pm node key val).1 = Except.error Err.assertBound := by
  have hlk : node_lookup_le node key = Except.ok 0 := by
    unfold node_lookup_le
    rw [h0]
    rfl
  have hk : get_key node 0 = Except.error Err.assertBound := by
    unfold get_key
    rw [h0]
    rfl
  have h3 : nodeTypeTryFrom 2 = Except.ok (Sum.inl NodeType.leaf) := rfl
  simp only [tree_insert, hlk, h2, h3, hk]

theorem c9_witness :
    nkeys leaf0 = Except.ok 0 ∧ btype leaf0 = Except.ok 2 ∧
    (tree_insert 1 ⟨[], 0, []⟩ leaf0 [5] [6]).1 = Except.error Err.assertBound :=
  ⟨rfl, rfl, c9_tree_insert_empty_leaf_asserts 0 ⟨[], 0, []⟩ leaf0 [5] [6] rfl rfl⟩

/-- Claim C10: converting a u16 tag to `NodeType` panics (`Invalid value`)
on every value other than 1 or 2, and the blanket `TryFrom` (with
`Error = Infallible`) never yields an `Err` value, so `tree_insert`'s
decode-error arm is unreachable: every `Ok` result of the conversion is an
`Ok(NodeType)`. -/
theorem c10_node_type_try_from (v : Nat) :
    (v ≠ 1 → v ≠ 2 → nodeTypeTryFrom v = Except.error Err.invalidValue) ∧
    (∀ r, nodeTypeTryFrom v = Except.ok r → ∃ nt, r = Sum.inl nt) := by
  constructor
  · intro hv1 hv2
    unfold nodeTypeTryFrom nodeTypeFromU16
    match v, hv1, hv2 with
    | 0, _, _ => rfl
    | 1, hv1, _ => exact absurd rfl hv1
    | 2, _, hv2 => exact absurd rfl hv2
    | (n + 3), _, _ => rfl
  · intro r hr
    unfold nodeTypeTryFrom at hr
    cases h : nodeTypeFromU16 v with
    | error e =>
      rw [h] at hr
      cases hr
    | ok nt =>
      rw [h] at hr
      injection hr with hr1
      exact ⟨nt, hr1.symm⟩

theorem c10_witness :
    nodeTypeTryFrom 5 = Except.error Err.invalidValue ∧
    ∃ nt, (Sum.inl NodeType.node : NodeType ⊕ Empty) = Sum.inl nt :=
  ⟨(c10_node_type_try_from 5).1 (by decide) (by decide),
   (c10_node_type_try_from 1).2 (Sum.inl NodeType.node) rfl⟩
